import Mathlib

/-!
Shallow embedding of `src/probe-rs/src/architecture/arm/ap_v2/registers.rs`.

Raw 32-bit register values are modelled as `Nat`; every Rust `u32` operation
used by the source (`>>`, `<<`, `&`, `|`) is reproduced with the corresponding
`Nat` operation.  Rust's `u32` left shift silently discards bits shifted past
bit 31, so each encoder ends with `% 2^32`, which (because all the operations
involved are shifts and bitwise ors) is equivalent to truncating after every
operation.  Rust `as u8` / `as u16` casts are modelled as `% 2^8` / `% 2^16`
at the positions where the source applies them.  Fallible conversions return
`Except RegisterParseError` mirroring `Result<_, RegisterParseError>`; the
infallible-by-type enum conversions that return `Option`/unit-error results in
the source are modelled as `Option`.
-/

deriving instance DecidableEq for Except

/-- Modelled from the spec: `RegisterParseError` is defined outside this file
(`crate::architecture::arm::RegisterParseError`); per the spec it "carries the
register's name and the full raw 32-bit value for diagnostics". -/
structure RegisterParseError where
  name : String
  value : Nat
deriving DecidableEq

/-- Modelled from the spec: the `RegisterParseError::new(name, value)`
constructor stores the register name and the raw value. -/
def RegisterParseError.new (name : String) (value : Nat) : RegisterParseError :=
  { name := name, value := value }

/-- The unit of data transferred in one DRW transfer (`DataSize` in the source). -/
inductive DataSize where
  | U8
  | U16
  | U32
  | U64
  | U128
  | U256
deriving DecidableEq

/-- The discriminant values assigned in the source (`U8 = 0b000`, ...,
`U256 = 0b101`); this is what `value.SIZE as u32` produces. -/
def DataSize.code : DataSize → Nat
  | .U8 => 0b000
  | .U16 => 0b001
  | .U32 => 0b010
  | .U64 => 0b011
  | .U128 => 0b100
  | .U256 => 0b101

/-- `DataSize::to_byte_count`. -/
def DataSize.to_byte_count : DataSize → Nat
  | .U8 => 1
  | .U16 => 2
  | .U32 => 4
  | .U64 => 8
  | .U128 => 16
  | .U256 => 32

/-- `TryFrom<u8> for DataSize`; the source's `InvalidDataSizeError` carries no
data, so the `Result` is modelled as an `Option` (`none` = error). -/
def DataSize.tryFrom : Nat → Option DataSize
  | 0b000 => some .U8
  | 0b001 => some .U16
  | 0b010 => some .U32
  | 0b011 => some .U64
  | 0b100 => some .U128
  | 0b101 => some .U256
  | _ => none

/-- The TAR increment performed after each DRW access (`AddressIncrement`). -/
inductive AddressIncrement where
  | Off
  | Single
  | Packed
deriving DecidableEq

/-- Discriminants from the source (`Off = 0b00`, `Single = 0b01`,
`Packed = 0b10`); this is what `value.AddrInc as u8` produces. -/
def AddressIncrement.code : AddressIncrement → Nat
  | .Off => 0b00
  | .Single => 0b01
  | .Packed => 0b10

/-- `AddressIncrement::from_u8`. -/
def AddressIncrement.fromU8 : Nat → Option AddressIncrement
  | 0b00 => some .Off
  | 0b01 => some .Single
  | 0b10 => some .Packed
  | _ => none

/-- The format of the BASE register (`BaseAddrFormat`). -/
inductive BaseAddrFormat where
  | Legacy
  | ADIv5
deriving DecidableEq

/-- Discriminants from the source (`Legacy = 0`, `ADIv5 = 1`); this is what
`value.Format as u8` produces. -/
def BaseAddrFormat.code : BaseAddrFormat → Nat
  | .Legacy => 0
  | .ADIv5 => 1

/-- `DebugEntryState` (declared in the source, not used by any register). -/
inductive DebugEntryState where
  | NotPresent
  | Present
deriving DecidableEq

/-- `u32::from(b)` for a `bool` (also used for `b as u8` widened to `u32`). -/
def u32ofBool (b : Bool) : Nat := if b then 1 else 0

/-- Control and Status Word register. -/
structure CSW where
  DbgSwEnable : Bool
  Prot : Nat
  SDeviceEn : Bool
  RMEEN : Nat
  _RES0 : Nat
  ERRSTOP : Bool
  ERRNPASS : Bool
  MTE : Bool
  «Type» : Nat
  Mode : Nat
  TrInProg : Bool
  DeviceEn : Bool
  AddrInc : AddressIncrement
  _RES1 : Nat
  SIZE : DataSize
deriving DecidableEq

/-- `TryFrom<u32> for CSW`.  The Rust struct literal evaluates its fields top
to bottom, so the `AddrInc` conversion fails before the `SIZE` one can run;
both produce `RegisterParseError::new("CSW", value)`. -/
def CSW.tryFrom (value : Nat) : Except RegisterParseError CSW :=
  match AddressIncrement.fromU8 ((value >>> 4) &&& 0x03) with
  | none => .error (RegisterParseError.new "CSW" value)
  | some ai =>
    match DataSize.tryFrom (value &&& 0x07) with
    | none => .error (RegisterParseError.new "CSW" value)
    | some sz =>
      .ok {
        DbgSwEnable := ((value >>> 31) &&& 0x01) != 0
        Prot := (value >>> 24) &&& 0x7F
        SDeviceEn := ((value >>> 23) &&& 0x01) != 0
        RMEEN := (value >>> 21) &&& 0x3
        _RES0 := (value >>> 18) &&& 0x07
        ERRSTOP := ((value >>> 17) &&& 0b1) != 0
        ERRNPASS := ((value >>> 16) &&& 0b1) != 0
        MTE := ((value >>> 15) &&& 0x01) != 0
        «Type» := (value >>> 12) &&& 0x07
        Mode := (value >>> 8) &&& 0x0F
        TrInProg := ((value >>> 7) &&& 0x01) != 0
        DeviceEn := ((value >>> 6) &&& 0x01) != 0
        AddrInc := ai
        _RES1 := (value >>> 3) &&& 1
        SIZE := sz
      }

/-- `From<CSW> for u32`.  Note that the source shifts `_RES1` left by 1 even
though the decoder reads it from bit 3. -/
def CSW.toU32 (value : CSW) : Nat :=
  ((u32ofBool value.DbgSwEnable <<< 31)
    ||| (value.Prot <<< 24)
    ||| (u32ofBool value.SDeviceEn <<< 23)
    ||| (value.RMEEN <<< 21)
    ||| (value._RES0 <<< 18)
    ||| (u32ofBool value.ERRSTOP <<< 17)
    ||| (u32ofBool value.ERRNPASS <<< 16)
    ||| (u32ofBool value.MTE <<< 15)
    ||| (value.«Type» <<< 12)
    ||| (value.Mode <<< 8)
    ||| (u32ofBool value.TrInProg <<< 7)
    ||| (u32ofBool value.DeviceEn <<< 6)
    ||| (value.AddrInc.code <<< 4)
    ||| (value._RES1 <<< 1)
    ||| value.SIZE.code) % 2 ^ 32

/-- Transfer Address Register. -/
structure TAR where
  address : Nat
deriving DecidableEq

/-- `TryFrom<u32> for TAR`. -/
def TAR.tryFrom (value : Nat) : Except RegisterParseError TAR :=
  .ok { address := value }

/-- `From<TAR> for u32`. -/
def TAR.toU32 (value : TAR) : Nat := value.address

/-- Transfer Address Register, upper word. -/
structure TAR2 where
  address : Nat
deriving DecidableEq

/-- `TryFrom<u32> for TAR2`. -/
def TAR2.tryFrom (value : Nat) : Except RegisterParseError TAR2 :=
  .ok { address := value }

/-- `From<TAR2> for u32`. -/
def TAR2.toU32 (value : TAR2) : Nat := value.address

/-- Data Read/Write register. -/
structure DRW where
  data : Nat
deriving DecidableEq

/-- `TryFrom<u32> for DRW`. -/
def DRW.tryFrom (value : Nat) : Except RegisterParseError DRW :=
  .ok { data := value }

/-- `From<DRW> for u32`. -/
def DRW.toU32 (value : DRW) : Nat := value.data

/-- Banked Data 0 register. -/
structure BD0 where
  data : Nat
deriving DecidableEq

/-- `TryFrom<u32> for BD0`. -/
def BD0.tryFrom (value : Nat) : Except RegisterParseError BD0 :=
  .ok { data := value }

/-- `From<BD0> for u32`. -/
def BD0.toU32 (value : BD0) : Nat := value.data

/-- Banked Data 1 register. -/
structure BD1 where
  data : Nat
deriving DecidableEq

/-- `TryFrom<u32> for BD1`. -/
def BD1.tryFrom (value : Nat) : Except RegisterParseError BD1 :=
  .ok { data := value }

/-- `From<BD1> for u32`. -/
def BD1.toU32 (value : BD1) : Nat := value.data

/-- Banked Data 2 register. -/
structure BD2 where
  data : Nat
deriving DecidableEq

/-- `TryFrom<u32> for BD2`. -/
def BD2.tryFrom (value : Nat) : Except RegisterParseError BD2 :=
  .ok { data := value }

/-- `From<BD2> for u32`. -/
def BD2.toU32 (value : BD2) : Nat := value.data

/-- Banked Data 3 register. -/
structure BD3 where
  data : Nat
deriving DecidableEq

/-- `TryFrom<u32> for BD3`. -/
def BD3.tryFrom (value : Nat) : Except RegisterParseError BD3 :=
  .ok { data := value }

/-- `From<BD3> for u32`. -/
def BD3.toU32 (value : BD3) : Nat := value.data

/-- Memory Barrier Transfer register. -/
structure MBT where
  data : Nat
deriving DecidableEq

/-- `TryFrom<u32> for MBT`. -/
def MBT.tryFrom (value : Nat) : Except RegisterParseError MBT :=
  .ok { data := value }

/-- `From<MBT> for u32`. -/
def MBT.toU32 (value : MBT) : Nat := value.data

/-- Base register, second word. -/
structure BASE2 where
  BASEADDR : Nat
deriving DecidableEq

/-- `TryFrom<u32> for BASE2`. -/
def BASE2.tryFrom (value : Nat) : Except RegisterParseError BASE2 :=
  .ok { BASEADDR := value }

/-- `From<BASE2> for u32`. -/
def BASE2.toU32 (value : BASE2) : Nat := value.BASEADDR

/-- Configuration register. -/
structure CFG where
  LD : Bool
  LA : Bool
  BE : Bool
deriving DecidableEq

/-- `TryFrom<u32> for CFG`. -/
def CFG.tryFrom (value : Nat) : Except RegisterParseError CFG :=
  .ok {
    LD := ((value >>> 2) &&& 0x01) != 0
    LA := ((value >>> 1) &&& 0x01) != 0
    BE := (value &&& 0x01) != 0
  }

/-- `From<CFG> for u32`. -/
def CFG.toU32 (value : CFG) : Nat :=
  ((u32ofBool value.LD <<< 2) ||| (u32ofBool value.LA <<< 1) ||| u32ofBool value.BE) % 2 ^ 32

/-- Base register. -/
structure BASE where
  BASEADDR : Nat
  _RES0 : Nat
  Format : BaseAddrFormat
  present : Bool
deriving DecidableEq

/-- The match on `((value >> 1) & 0x01) as u8` inside `BASE::try_from`;
`none` models the default arm, which is a runtime abort (the source's
"This is a bug. Please report it." branch). -/
def BASE.formatOfBits : Nat → Option BaseAddrFormat
  | 0 => some .Legacy
  | 1 => some .ADIv5
  | _ => none

/-- The match on `(value & 0x01) as u8` inside `BASE::try_from`; `none`
models the default arm, which is a runtime abort. -/
def BASE.presentOfBits : Nat → Option Bool
  | 0 => some false
  | 1 => some true
  | _ => none

/-- `TryFrom<u32> for BASE`.  The outer `Option` layer records whether a
runtime abort was reached (`none`); `some` carries the `Result` the Rust
function returns when it does not abort. -/
def BASE.tryFrom (value : Nat) : Option (Except RegisterParseError BASE) :=
  match BASE.formatOfBits ((value >>> 1) &&& 0x01), BASE.presentOfBits (value &&& 0x01) with
  | some f, some p =>
    some (.ok {
      BASEADDR := (value &&& 0xFFFFF000) >>> 12
      _RES0 := 0
      Format := f
      present := p
    })
  | _, _ => none

/-- `From<BASE> for u32`; `_RES0` is not used by the encoder. -/
def BASE.toU32 (value : BASE) : Nat :=
  ((value.BASEADDR <<< 12) ||| (value.Format.code <<< 1) ||| u32ofBool value.present) % 2 ^ 32

/-- Identification register. -/
structure IDR where
  REVISION : Nat
  DESIGNER : Nat
  CLASS : Nat
  VARIANT : Nat
  TYPE : Nat
deriving DecidableEq

/-- `TryFrom<u32> for IDR`.  The source truncates with `as u8` / `as u16`
before masking (`(value >> 28) as u8 & 0xF` parses as
`((value >> 28) as u8) & 0xF`); the truncation is the `% 2 ^ 8` / `% 2 ^ 16`. -/
def IDR.tryFrom (value : Nat) : Except RegisterParseError IDR :=
  .ok {
    REVISION := ((value >>> 28) % 2 ^ 8) &&& 0xF
    DESIGNER := ((value >>> 17) % 2 ^ 16) &&& 0x7FF
    CLASS := ((value >>> 13) % 2 ^ 8) &&& 0xF
    VARIANT := ((value >>> 4) % 2 ^ 8) &&& 0xF
    TYPE := (value % 2 ^ 8) &&& 0xF
  }

/-- `From<IDR> for u32`. -/
def IDR.toU32 (value : IDR) : Nat :=
  ((value.REVISION <<< 28)
    ||| (value.DESIGNER <<< 17)
    ||| (value.CLASS <<< 13)
    ||| (value.VARIANT <<< 4)
    ||| value.TYPE) % 2 ^ 32

/-- The CSW value that raw `0x0000_0008` decodes to: every field is
zero/false/`Off`/`U8` except `_RES1`, which captures bit 3. -/
def cswDecodedFrom8 : CSW :=
  { DbgSwEnable := false, Prot := 0, SDeviceEn := false, RMEEN := 0,
    _RES0 := 0, ERRSTOP := false, ERRNPASS := false, MTE := false,
    «Type» := 0, Mode := 0, TrInProg := false, DeviceEn := false,
    AddrInc := .Off, _RES1 := 1, SIZE := .U8 }

/-- A CSW value all of whose fields are admissible for their Rust types
(`Prot = 0x80` fits in a `u8`) but whose `Prot` exceeds its declared 7-bit
field width. -/
def cswProtOverflow : CSW :=
  { DbgSwEnable := false, Prot := 0x80, SDeviceEn := false, RMEEN := 0,
    _RES0 := 0, ERRSTOP := false, ERRNPASS := false, MTE := false,
    «Type» := 0, Mode := 0, TrInProg := false, DeviceEn := false,
    AddrInc := .Off, _RES1 := 0, SIZE := .U8 }

/-- A sample in-width CSW value, used to witness the round-trip theorem. -/
def cswSample : CSW :=
  { DbgSwEnable := true, Prot := 0x2B, SDeviceEn := true, RMEEN := 1,
    _RES0 := 5, ERRSTOP := false, ERRNPASS := true, MTE := false,
    «Type» := 6, Mode := 9, TrInProg := true, DeviceEn := false,
    AddrInc := .Packed, _RES1 := 0, SIZE := .U256 }

/-- A sample in-width IDR value, used to witness the round-trip theorem. -/
def idrSample : IDR :=
  { REVISION := 0x2, DESIGNER := 0x23B, CLASS := 0x8, VARIANT := 0x1, TYPE := 0x1 }

/-- A sample BASE value with `BASEADDR` within 20 bits and `_RES0 = 0`. -/
def baseSample : BASE :=
  { BASEADDR := 0xE0000, _RES0 := 0, Format := .ADIv5, present := true }

/-- A sample CFG value. -/
def cfgSample : CFG := { LD := true, LA := false, BE := true }

/-! ### Bit-manipulation helper lemmas -/

theorem shl_or_eq_add (x b k : Nat) (hb : b < 2 ^ k) : (x <<< k) ||| b = x * 2 ^ k + b := by
  rw [Nat.shiftLeft_eq, Nat.mul_comm x (2 ^ k), ← Nat.mul_add_lt_is_or hb x, Nat.mul_comm]

theorem and_mask_eq_mod (x : Nat) {m n : Nat} (h : m = 2 ^ n - 1) : x &&& m = x % 2 ^ n := by
  rw [h]
  exact Nat.and_pow_two_sub_one_eq_mod x n

theorem or_eq_add_of_mod_eq_zero (a b k : Nat) (ha : a % 2 ^ k = 0) (hb : b < 2 ^ k) :
    a ||| b = a + b := by
  conv_lhs => rw [← Nat.div_mul_cancel (Nat.dvd_of_mod_eq_zero ha), ← Nat.shiftLeft_eq]
  rw [shl_or_eq_add _ _ _ hb, Nat.div_mul_cancel (Nat.dvd_of_mod_eq_zero ha)]

theorem and_high_mask (x : Nat) : x &&& 0xFFFFF000 = ((x >>> 12) &&& 0xFFFFF) <<< 12 := by
  apply Nat.eq_of_testBit_eq
  intro i
  rw [show (0xFFFFF000 : Nat) = 0xFFFFF <<< 12 from rfl]
  simp only [Nat.testBit_and, Nat.testBit_shiftLeft, Nat.testBit_shiftRight]
  by_cases h : 12 ≤ i
  · simp [h, Nat.add_sub_cancel' h, Bool.and_left_comm, Bool.and_comm]
  · simp [h]

theorem base_addr_extract (x : Nat) : (x &&& 0xFFFFF000) >>> 12 = (x >>> 12) % 2 ^ 20 := by
  rw [and_high_mask, Nat.shiftLeft_eq, Nat.shiftRight_eq_div_pow,
    Nat.mul_div_cancel _ (Nat.two_pow_pos 12),
    and_mask_eq_mod _ (show (0xFFFFF : Nat) = 2 ^ 20 - 1 from rfl)]

theorem u32ofBool_le (b : Bool) : u32ofBool b ≤ 1 := by cases b <;> decide

theorem bne_u32ofBool (b : Bool) : (u32ofBool b != 0) = b := by cases b <;> rfl

theorem DataSize.code_le_five (s : DataSize) : s.code ≤ 5 := by cases s <;> decide

theorem AddressIncrement.code_le_two (a : AddressIncrement) : a.code ≤ 2 := by cases a <;> decide

theorem BaseAddrFormat.code_le_one (f : BaseAddrFormat) : f.code ≤ 1 := by cases f <;> decide

theorem DataSize.tryFrom_code (s : DataSize) : DataSize.tryFrom s.code = some s := by
  cases s <;> rfl

theorem AddressIncrement.fromU8_code (a : AddressIncrement) :
    AddressIncrement.fromU8 a.code = some a := by
  cases a <;> rfl

theorem BASE.formatOfBits_code (f : BaseAddrFormat) : BASE.formatOfBits f.code = some f := by
  cases f <;> rfl

theorem BASE.presentOfBits_bit (b : Bool) : BASE.presentOfBits (u32ofBool b) = some b := by
  cases b <;> rfl

/-- The or-of-shifted-fields produced by the CSW encoder (with `_RES1 = 0`)
equals the corresponding weighted sum, provided each field fits its
declared width. -/
theorem csw_or_eq_sum (x31 x24 x23 x21 x18 x17 x16 x15 x12 x8 x7 x6 x4 x0 : Nat)
    (h31 : x31 ≤ 1) (h24 : x24 < 2 ^ 7) (h23 : x23 ≤ 1) (h21 : x21 < 2 ^ 2)
    (h18 : x18 < 2 ^ 3) (h17 : x17 ≤ 1) (h16 : x16 ≤ 1) (h15 : x15 ≤ 1)
    (h12 : x12 < 2 ^ 3) (h8 : x8 < 2 ^ 4) (h7 : x7 ≤ 1) (h6 : x6 ≤ 1)
    (h4 : x4 ≤ 2) (h0 : x0 ≤ 5) :
    ((x31 <<< 31) ||| (x24 <<< 24) ||| (x23 <<< 23) ||| (x21 <<< 21) ||| (x18 <<< 18)
        ||| (x17 <<< 17) ||| (x16 <<< 16) ||| (x15 <<< 15) ||| (x12 <<< 12) ||| (x8 <<< 8)
        ||| (x7 <<< 7) ||| (x6 <<< 6) ||| (x4 <<< 4) ||| (0 <<< 1) ||| x0) % 2 ^ 32
      = x31 * 2 ^ 31 + x24 * 2 ^ 24 + x23 * 2 ^ 23 + x21 * 2 ^ 21 + x18 * 2 ^ 18
        + x17 * 2 ^ 17 + x16 * 2 ^ 16 + x15 * 2 ^ 15 + x12 * 2 ^ 12 + x8 * 2 ^ 8
        + x7 * 2 ^ 7 + x6 * 2 ^ 6 + x4 * 2 ^ 4 + x0 := by
  simp only [Nat.or_assoc, Nat.zero_shiftLeft, Nat.zero_or]
  rw [shl_or_eq_add _ _ _ (show x0 < 2 ^ 4 by omega)]
  rw [shl_or_eq_add _ _ _ (show x4 * 2 ^ 4 + x0 < 2 ^ 6 by omega)]
  rw [shl_or_eq_add _ _ _ (show x6 * 2 ^ 6 + (x4 * 2 ^ 4 + x0) < 2 ^ 7 by omega)]
  rw [shl_or_eq_add _ _ _ (show x7 * 2 ^ 7 + (x6 * 2 ^ 6 + (x4 * 2 ^ 4 + x0)) < 2 ^ 8 by omega)]
  rw [shl_or_eq_add _ _ _ (show x8 * 2 ^ 8 + (x7 * 2 ^ 7 + (x6 * 2 ^ 6 + (x4 * 2 ^ 4 + x0)))
    < 2 ^ 12 by omega)]
  rw [shl_or_eq_add _ _ _ (show x12 * 2 ^ 12 + (x8 * 2 ^ 8 + (x7 * 2 ^ 7 + (x6 * 2 ^ 6
    + (x4 * 2 ^ 4 + x0)))) < 2 ^ 15 by omega)]
  rw [shl_or_eq_add _ _ _ (show x15 * 2 ^ 15 + (x12 * 2 ^ 12 + (x8 * 2 ^ 8 + (x7 * 2 ^ 7
    + (x6 * 2 ^ 6 + (x4 * 2 ^ 4 + x0))))) < 2 ^ 16 by omega)]
  rw [shl_or_eq_add _ _ _ (show x16 * 2 ^ 16 + (x15 * 2 ^ 15 + (x12 * 2 ^ 12 + (x8 * 2 ^ 8
    + (x7 * 2 ^ 7 + (x6 * 2 ^ 6 + (x4 * 2 ^ 4 + x0)))))) < 2 ^ 17 by omega)]
  rw [shl_or_eq_add _ _ _ (show x17 * 2 ^ 17 + (x16 * 2 ^ 16 + (x15 * 2 ^ 15 + (x12 * 2 ^ 12
    + (x8 * 2 ^ 8 + (x7 * 2 ^ 7 + (x6 * 2 ^ 6 + (x4 * 2 ^ 4 + x0))))))) < 2 ^ 18 by omega)]
  rw [shl_or_eq_add _ _ _ (show x18 * 2 ^ 18 + (x17 * 2 ^ 17 + (x16 * 2 ^ 16 + (x15 * 2 ^ 15
    + (x12 * 2 ^ 12 + (x8 * 2 ^ 8 + (x7 * 2 ^ 7 + (x6 * 2 ^ 6 + (x4 * 2 ^ 4 + x0))))))))
    < 2 ^ 21 by omega)]
  rw [shl_or_eq_add _ _ _ (show x21 * 2 ^ 21 + (x18 * 2 ^ 18 + (x17 * 2 ^ 17 + (x16 * 2 ^ 16
    + (x15 * 2 ^ 15 + (x12 * 2 ^ 12 + (x8 * 2 ^ 8 + (x7 * 2 ^ 7 + (x6 * 2 ^ 6
    + (x4 * 2 ^ 4 + x0))))))))) < 2 ^ 23 by omega)]
  rw [shl_or_eq_add _ _ _ (show x23 * 2 ^ 23 + (x21 * 2 ^ 21 + (x18 * 2 ^ 18 + (x17 * 2 ^ 17
    + (x16 * 2 ^ 16 + (x15 * 2 ^ 15 + (x12 * 2 ^ 12 + (x8 * 2 ^ 8 + (x7 * 2 ^ 7
    + (x6 * 2 ^ 6 + (x4 * 2 ^ 4 + x0)))))))))) < 2 ^ 24 by omega)]
  rw [shl_or_eq_add _ _ _ (show x24 * 2 ^ 24 + (x23 * 2 ^ 23 + (x21 * 2 ^ 21 + (x18 * 2 ^ 18
    + (x17 * 2 ^ 17 + (x16 * 2 ^ 16 + (x15 * 2 ^ 15 + (x12 * 2 ^ 12 + (x8 * 2 ^ 8
    + (x7 * 2 ^ 7 + (x6 * 2 ^ 6 + (x4 * 2 ^ 4 + x0))))))))))) < 2 ^ 31 by omega)]
  rw [Nat.mod_eq_of_lt (by omega)]
  omega

/-- Extraction of every CSW field from the weighted sum built by
`csw_or_eq_sum`. -/
theorem csw_bits (S x31 x24 x23 x21 x18 x17 x16 x15 x12 x8 x7 x6 x4 x0 : Nat)
    (hS : S = x31 * 2 ^ 31 + x24 * 2 ^ 24 + x23 * 2 ^ 23 + x21 * 2 ^ 21 + x18 * 2 ^ 18
      + x17 * 2 ^ 17 + x16 * 2 ^ 16 + x15 * 2 ^ 15 + x12 * 2 ^ 12 + x8 * 2 ^ 8
      + x7 * 2 ^ 7 + x6 * 2 ^ 6 + x4 * 2 ^ 4 + x0)
    (h31 : x31 ≤ 1) (h24 : x24 < 2 ^ 7) (h23 : x23 ≤ 1) (h21 : x21 < 2 ^ 2)
    (h18 : x18 < 2 ^ 3) (h17 : x17 ≤ 1) (h16 : x16 ≤ 1) (h15 : x15 ≤ 1)
    (h12 : x12 < 2 ^ 3) (h8 : x8 < 2 ^ 4) (h7 : x7 ≤ 1) (h6 : x6 ≤ 1)
    (h4 : x4 ≤ 2) (h0 : x0 ≤ 5) :
    (S >>> 31) &&& 0x01 = x31 ∧ (S >>> 24) &&& 0x7F = x24 ∧ (S >>> 23) &&& 0x01 = x23
      ∧ (S >>> 21) &&& 0x3 = x21 ∧ (S >>> 18) &&& 0x07 = x18 ∧ (S >>> 17) &&& 0b1 = x17
      ∧ (S >>> 16) &&& 0b1 = x16 ∧ (S >>> 15) &&& 0x01 = x15 ∧ (S >>> 12) &&& 0x07 = x12
      ∧ (S >>> 8) &&& 0x0F = x8 ∧ (S >>> 7) &&& 0x01 = x7 ∧ (S >>> 6) &&& 0x01 = x6
      ∧ (S >>> 4) &&& 0x03 = x4 ∧ (S >>> 3) &&& 1 = 0 ∧ S &&& 0x07 = x0 := by
  subst hS
  refine ⟨?_, ?_, ?_, ?_, ?_, ?_, ?_, ?_, ?_, ?_, ?_, ?_, ?_, ?_, ?_⟩
  · rw [Nat.shiftRight_eq_div_pow, Nat.and_one_is_mod]; omega
  · rw [Nat.shiftRight_eq_div_pow, and_mask_eq_mod _ (show (0x7F : Nat) = 2 ^ 7 - 1 from rfl)]
    omega
  · rw [Nat.shiftRight_eq_div_pow, Nat.and_one_is_mod]; omega
  · rw [Nat.shiftRight_eq_div_pow, and_mask_eq_mod _ (show (0x3 : Nat) = 2 ^ 2 - 1 from rfl)]
    omega
  · rw [Nat.shiftRight_eq_div_pow, and_mask_eq_mod _ (show (0x07 : Nat) = 2 ^ 3 - 1 from rfl)]
    omega
  · rw [Nat.shiftRight_eq_div_pow, Nat.and_one_is_mod]; omega
  · rw [Nat.shiftRight_eq_div_pow, Nat.and_one_is_mod]; omega
  · rw [Nat.shiftRight_eq_div_pow, Nat.and_one_is_mod]; omega
  · rw [Nat.shiftRight_eq_div_pow, and_mask_eq_mod _ (show (0x07 : Nat) = 2 ^ 3 - 1 from rfl)]
    omega
  · rw [Nat.shiftRight_eq_div_pow, and_mask_eq_mod _ (show (0x0F : Nat) = 2 ^ 4 - 1 from rfl)]
    omega
  · rw [Nat.shiftRight_eq_div_pow, Nat.and_one_is_mod]; omega
  · rw [Nat.shiftRight_eq_div_pow, Nat.and_one_is_mod]; omega
  · rw [Nat.shiftRight_eq_div_pow, and_mask_eq_mod _ (show (0x03 : Nat) = 2 ^ 2 - 1 from rfl)]
    omega
  · rw [Nat.shiftRight_eq_div_pow, Nat.and_one_is_mod]; omega
  · rw [and_mask_eq_mod _ (show (0x07 : Nat) = 2 ^ 3 - 1 from rfl)]; omega

/-- Decoding the encoding of an in-width CSW value with `_RES1 = 0` gives the
value back (field-variable form). -/
theorem csw_roundtrip (d sd es en mt tr de : Bool) (p rm r0 ty mo : Nat)
    (ai : AddressIncrement) (sz : DataSize)
    (hp : p < 2 ^ 7) (hrm : rm < 2 ^ 2) (hr0 : r0 < 2 ^ 3) (hty : ty < 2 ^ 3)
    (hmo : mo < 2 ^ 4) :
    CSW.tryFrom (CSW.toU32 ⟨d, p, sd, rm, r0, es, en, mt, ty, mo, tr, de, ai, 0, sz⟩)
      = .ok ⟨d, p, sd, rm, r0, es, en, mt, ty, mo, tr, de, ai, 0, sz⟩ := by
  have hsum : CSW.toU32 ⟨d, p, sd, rm, r0, es, en, mt, ty, mo, tr, de, ai, 0, sz⟩
      = u32ofBool d * 2 ^ 31 + p * 2 ^ 24 + u32ofBool sd * 2 ^ 23 + rm * 2 ^ 21
        + r0 * 2 ^ 18 + u32ofBool es * 2 ^ 17 + u32ofBool en * 2 ^ 16 + u32ofBool mt * 2 ^ 15
        + ty * 2 ^ 12 + mo * 2 ^ 8 + u32ofBool tr * 2 ^ 7 + u32ofBool de * 2 ^ 6
        + ai.code * 2 ^ 4 + sz.code :=
    csw_or_eq_sum _ _ _ _ _ _ _ _ _ _ _ _ _ _ (u32ofBool_le d) hp (u32ofBool_le sd) hrm hr0
      (u32ofBool_le es) (u32ofBool_le en) (u32ofBool_le mt) hty hmo (u32ofBool_le tr)
      (u32ofBool_le de) (AddressIncrement.code_le_two ai) (DataSize.code_le_five sz)
  obtain ⟨b31, b24, b23, b21, b18, b17, b16, b15, b12, b8, b7, b6, b4, b3, b0⟩ :=
    csw_bits _ _ _ _ _ _ _ _ _ _ _ _ _ _ _ hsum (u32ofBool_le d) hp (u32ofBool_le sd) hrm hr0
      (u32ofBool_le es) (u32ofBool_le en) (u32ofBool_le mt) hty hmo (u32ofBool_le tr)
      (u32ofBool_le de) (AddressIncrement.code_le_two ai) (DataSize.code_le_five sz)
  simp only [CSW.tryFrom, b4, AddressIncrement.fromU8_code, b0, DataSize.tryFrom_code,
    b31, b24, b23, b21, b18, b17, b16, b15, b12, b8, b7, b6, b3, bne_u32ofBool]

/-- CSW decoding fails exactly when the `AddrInc` bits are `0b11` or the
`SIZE` bits are `0b110`/`0b111`. -/
theorem csw_error_iff (v : Nat) :
    (∃ e, CSW.tryFrom v = .error e)
      ↔ ((v >>> 4) &&& 0x03 = 0b11 ∨ v &&& 0x07 = 0b110 ∨ v &&& 0x07 = 0b111) := by
  have hx : (v >>> 4) &&& 0x03 ≤ 3 := Nat.and_le_right
  have hy : v &&& 0x07 ≤ 7 := Nat.and_le_right
  unfold CSW.tryFrom
  generalize hgx : (v >>> 4) &&& 0x03 = x at hx ⊢
  generalize hgy : v &&& 0x07 = y at hy ⊢
  interval_cases x <;> interval_cases y <;>
    simp [AddressIncrement.fromU8, DataSize.tryFrom]

/-- Every CSW decode error carries the register name `"CSW"` and the raw
input value. -/
theorem csw_error_content (v : Nat) (e : RegisterParseError)
    (h : CSW.tryFrom v = .error e) : e = RegisterParseError.new "CSW" v := by
  unfold CSW.tryFrom at h
  cases hA : AddressIncrement.fromU8 ((v >>> 4) &&& 0x03) with
  | none =>
    simp only [hA] at h
    simp only [Except.error.injEq] at h
    exact h.symm
  | some ai =>
    simp only [hA] at h
    cases hS : DataSize.tryFrom (v &&& 0x07) with
    | none =>
      simp only [hS] at h
      simp only [Except.error.injEq] at h
      exact h.symm
    | some sz =>
      simp only [hS] at h
      simp at h

/-- The BASE decoder always reaches the `some (Ok _)` outcome, its `BASEADDR`
is the masked-and-shifted input, and its `_RES0` is hardwired to zero. -/
theorem base_decode_shape (v : Nat) :
    ∃ f p, BASE.tryFrom v = some (.ok
      { BASEADDR := (v &&& 0xFFFFF000) >>> 12, _RES0 := 0, Format := f, present := p }) := by
  have h1 : (v >>> 1) &&& 0x01 ≤ 1 := Nat.and_le_right
  have h2 : v &&& 0x01 ≤ 1 := Nat.and_le_right
  unfold BASE.tryFrom
  generalize hg1 : (v >>> 1) &&& 0x01 = x at h1 ⊢
  generalize hg2 : v &&& 0x01 = y at h2 ⊢
  interval_cases x <;> interval_cases y <;> exact ⟨_, _, rfl⟩

/-- Decoding the encoding of a BASE value with a 20-bit `BASEADDR` and
`_RES0 = 0` gives the value back (field-variable form). -/
theorem base_roundtrip (B : Nat) (f : BaseAddrFormat) (pr : Bool) (hB : B < 2 ^ 20) :
    BASE.tryFrom (BASE.toU32 ⟨B, 0, f, pr⟩) = some (.ok ⟨B, 0, f, pr⟩) := by
  have hf := BaseAddrFormat.code_le_one f
  have hpr := u32ofBool_le pr
  have hsum : BASE.toU32 ⟨B, 0, f, pr⟩ = B * 2 ^ 12 + (f.code * 2 ^ 1 + u32ofBool pr) := by
    show ((B <<< 12) ||| (f.code <<< 1) ||| u32ofBool pr) % 2 ^ 32 = _
    simp only [Nat.or_assoc]
    rw [shl_or_eq_add _ _ _ (show u32ofBool pr < 2 ^ 1 by omega)]
    rw [shl_or_eq_add _ _ _ (show f.code * 2 ^ 1 + u32ofBool pr < 2 ^ 12 by omega)]
    exact Nat.mod_eq_of_lt (by omega)
  have e1 : (BASE.toU32 ⟨B, 0, f, pr⟩ >>> 1) &&& 0x01 = f.code := by
    rw [hsum, Nat.shiftRight_eq_div_pow, Nat.and_one_is_mod]
    omega
  have e2 : BASE.toU32 ⟨B, 0, f, pr⟩ &&& 0x01 = u32ofBool pr := by
    rw [hsum, Nat.and_one_is_mod]
    omega
  have e3 : (BASE.toU32 ⟨B, 0, f, pr⟩ &&& 0xFFFFF000) >>> 12 = B := by
    rw [base_addr_extract, hsum, Nat.shiftRight_eq_div_pow]
    omega
  simp only [BASE.tryFrom, e1, e2, BASE.formatOfBits_code, BASE.presentOfBits_bit, e3]

/-- Decoding the encoding of an in-width IDR value gives the value back
(field-variable form). -/
theorem idr_roundtrip (R D C V T : Nat) (hR : R < 2 ^ 4) (hD : D < 2 ^ 11) (hC : C < 2 ^ 4)
    (hV : V < 2 ^ 4) (hT : T < 2 ^ 4) :
    IDR.tryFrom (IDR.toU32 ⟨R, D, C, V, T⟩) = .ok ⟨R, D, C, V, T⟩ := by
  have hsum : IDR.toU32 ⟨R, D, C, V, T⟩
      = R * 2 ^ 28 + (D * 2 ^ 17 + (C * 2 ^ 13 + (V * 2 ^ 4 + T))) := by
    show ((R <<< 28) ||| (D <<< 17) ||| (C <<< 13) ||| (V <<< 4) ||| T) % 2 ^ 32 = _
    simp only [Nat.or_assoc]
    rw [shl_or_eq_add _ _ _ (show T < 2 ^ 4 from hT)]
    rw [shl_or_eq_add _ _ _ (show V * 2 ^ 4 + T < 2 ^ 13 by omega)]
    rw [shl_or_eq_add _ _ _ (show C * 2 ^ 13 + (V * 2 ^ 4 + T) < 2 ^ 17 by omega)]
    rw [shl_or_eq_add _ _ _ (show D * 2 ^ 17 + (C * 2 ^ 13 + (V * 2 ^ 4 + T)) < 2 ^ 28
      by omega)]
    exact Nat.mod_eq_of_lt (by omega)
  have k4 : ∀ x : Nat, x &&& 0xF = x % 2 ^ 4 := fun x => and_mask_eq_mod x rfl
  have k11 : ∀ x : Nat, x &&& 0x7FF = x % 2 ^ 11 := fun x => and_mask_eq_mod x rfl
  unfold IDR.tryFrom
  rw [hsum]
  simp only [Except.ok.injEq, IDR.mk.injEq, Nat.shiftRight_eq_div_pow, k4, k11]
  refine ⟨?_, ?_, ?_, ?_, ?_⟩ <;> omega

/-- Decoding the encoding of a CFG value gives the value back. -/
theorem cfg_roundtrip (ld la be : Bool) :
    CFG.tryFrom (CFG.toU32 ⟨ld, la, be⟩) = .ok ⟨ld, la, be⟩ := by
  cases ld <;> cases la <;> cases be <;> decide

/-! ### Claim theorems -/

/-- **C1** (code evaluation at the failing input): the raw value `0x8`
decodes successfully, its `_RES1` field (declared at bit 3) captures bit 3,
yet re-encoding produces `0x2`: bit 3 — a bit covered by the declared field
`_RES1` — is not reproduced, because the encoder shifts `_RES1` left by 1
instead of 3.  This refutes the claimed round-trip on field-covered bits for
CSW. -/
theorem c1_csw_res1_encode_drops_bit3 :
    CSW.tryFrom 0x8 = .ok cswDecodedFrom8
      ∧ CSW.toU32 cswDecodedFrom8 = 0x2
      ∧ (0x8 >>> 3) &&& 0x01 = 1
      ∧ (0x2 >>> 3) &&& 0x01 = 0 := by
  decide

/-- **C2** (counterexample): the CSW value with `Prot = 0x80` — a value the
field's Rust type `u8` admits — does not survive `decode ∘ encode`: its
`Prot` bit 7 is shifted into the `DbgSwEnable` position, so the claim's
quantification over "all field contents the types admit" fails. -/
theorem c2_counterexample :
    CSW.tryFrom (CSW.toU32 cswProtOverflow) ≠ .ok cswProtOverflow := by
  decide

/-- **C2** (amended): `decode (encode v) = Ok v` holds for every register
value whose integer fields fit their declared bit widths, provided
additionally that `CSW._RES1 = 0` (the encoder misplaces that field) and
`BASE._RES0 = 0` with `BASE.BASEADDR < 2^20` (the BASE encoder drops the
reserved bits and keeps only 20 address bits). -/
theorem c2_roundtrip_amended (c : CSW) (i : IDR) (b : BASE) (g : CFG) (t : TAR)
    (t2 : TAR2) (dr : DRW) (d0 : BD0) (d1 : BD1) (d2 : BD2) (d3 : BD3) (mb : MBT)
    (ba : BASE2)
    (hp : c.Prot < 2 ^ 7) (hrm : c.RMEEN < 2 ^ 2) (hr0 : c._RES0 < 2 ^ 3)
    (hty : c.«Type» < 2 ^ 3) (hmo : c.Mode < 2 ^ 4) (hr1 : c._RES1 = 0)
    (hiR : i.REVISION < 2 ^ 4) (hiD : i.DESIGNER < 2 ^ 11) (hiC : i.CLASS < 2 ^ 4)
    (hiV : i.VARIANT < 2 ^ 4) (hiT : i.TYPE < 2 ^ 4)
    (hbB : b.BASEADDR < 2 ^ 20) (hb0 : b._RES0 = 0) :
    CSW.tryFrom (CSW.toU32 c) = .ok c
      ∧ IDR.tryFrom (IDR.toU32 i) = .ok i
      ∧ BASE.tryFrom (BASE.toU32 b) = some (.ok b)
      ∧ CFG.tryFrom (CFG.toU32 g) = .ok g
      ∧ TAR.tryFrom (TAR.toU32 t) = .ok t
      ∧ TAR2.tryFrom (TAR2.toU32 t2) = .ok t2
      ∧ DRW.tryFrom (DRW.toU32 dr) = .ok dr
      ∧ BD0.tryFrom (BD0.toU32 d0) = .ok d0
      ∧ BD1.tryFrom (BD1.toU32 d1) = .ok d1
      ∧ BD2.tryFrom (BD2.toU32 d2) = .ok d2
      ∧ BD3.tryFrom (BD3.toU32 d3) = .ok d3
      ∧ MBT.tryFrom (MBT.toU32 mb) = .ok mb
      ∧ BASE2.tryFrom (BASE2.toU32 ba) = .ok ba := by
  obtain ⟨d, p, sd, rm, r0, es, en, mt, ty, mo, tr, de, ai, r1, sz⟩ := c
  obtain ⟨R, D, C, V, T⟩ := i
  obtain ⟨B, br, f, pr⟩ := b
  obtain ⟨ld, la, be⟩ := g
  have hr1' : r1 = 0 := hr1
  have hb0' : br = 0 := hb0
  subst hr1'
  subst hb0'
  refine ⟨?_, ?_, ?_, ?_, rfl, rfl, rfl, rfl, rfl, rfl, rfl, rfl, rfl⟩
  · exact csw_roundtrip d sd es en mt tr de p rm r0 ty mo ai sz hp hrm hr0 hty hmo
  · exact idr_roundtrip R D C V T hiR hiD hiC hiV hiT
  · exact base_roundtrip B f pr hbB
  · exact cfg_roundtrip ld la be

/-- Witness for the amended C2 round-trip at concrete register values. -/
theorem c2_roundtrip_amended_witness :
    CSW.tryFrom (CSW.toU32 cswSample) = .ok cswSample
      ∧ IDR.tryFrom (IDR.toU32 idrSample) = .ok idrSample
      ∧ BASE.tryFrom (BASE.toU32 baseSample) = some (.ok baseSample)
      ∧ CFG.tryFrom (CFG.toU32 cfgSample) = .ok cfgSample
      ∧ TAR.tryFrom (TAR.toU32 { address := 0xDEADBEEF }) = .ok { address := 0xDEADBEEF }
      ∧ TAR2.tryFrom (TAR2.toU32 { address := 0xFFFFFFFF }) = .ok { address := 0xFFFFFFFF }
      ∧ DRW.tryFrom (DRW.toU32 { data := 2 }) = .ok { data := 2 }
      ∧ BD0.tryFrom (BD0.toU32 { data := 3 }) = .ok { data := 3 }
      ∧ BD1.tryFrom (BD1.toU32 { data := 4 }) = .ok { data := 4 }
      ∧ BD2.tryFrom (BD2.toU32 { data := 5 }) = .ok { data := 5 }
      ∧ BD3.tryFrom (BD3.toU32 { data := 6 }) = .ok { data := 6 }
      ∧ MBT.tryFrom (MBT.toU32 { data := 7 }) = .ok { data := 7 }
      ∧ BASE2.tryFrom (BASE2.toU32 { BASEADDR := 8 }) = .ok { BASEADDR := 8 } :=
  c2_roundtrip_amended cswSample idrSample baseSample cfgSample
    { address := 0xDEADBEEF } { address := 0xFFFFFFFF } { data := 2 } { data := 3 }
    { data := 4 } { data := 5 } { data := 6 } { data := 7 } { BASEADDR := 8 }
    (by decide) (by decide) (by decide) (by decide) (by decide) (by decide)
    (by decide) (by decide) (by decide) (by decide) (by decide) (by decide) (by decide)

/-- **C3**: over the whole catalog, decoding fails exactly for CSW inputs
whose `AddrInc` bits [5:4] are `0b11` or whose `SIZE` bits [2:0] are `0b110`
or `0b111`; the error carries the name `"CSW"` and the raw value; every other
register decodes to `Ok` on every input (encoding is a total function of the
typed value by construction). -/
theorem c3_decode_error_classification (v : Nat) :
    ((∃ e, CSW.tryFrom v = .error e)
        ↔ ((v >>> 4) &&& 0x03 = 0b11 ∨ v &&& 0x07 = 0b110 ∨ v &&& 0x07 = 0b111))
      ∧ (∀ e, CSW.tryFrom v = .error e → e = RegisterParseError.new "CSW" v)
      ∧ TAR.tryFrom v = .ok { address := v }
      ∧ TAR2.tryFrom v = .ok { address := v }
      ∧ DRW.tryFrom v = .ok { data := v }
      ∧ BD0.tryFrom v = .ok { data := v }
      ∧ BD1.tryFrom v = .ok { data := v }
      ∧ BD2.tryFrom v = .ok { data := v }
      ∧ BD3.tryFrom v = .ok { data := v }
      ∧ MBT.tryFrom v = .ok { data := v }
      ∧ BASE2.tryFrom v = .ok { BASEADDR := v }
      ∧ (∃ g, CFG.tryFrom v = .ok g)
      ∧ (∃ b, BASE.tryFrom v = some (.ok b))
      ∧ (∃ r, IDR.tryFrom v = .ok r) := by
  refine ⟨csw_error_iff v, fun e h => csw_error_content v e h, rfl, rfl, rfl, rfl, rfl,
    rfl, rfl, rfl, rfl, ⟨_, rfl⟩, ?_, ⟨_, rfl⟩⟩
  obtain ⟨f, p, h⟩ := base_decode_shape v
  exact ⟨_, h⟩

/-- **C4**: the BASE decoder never reaches its panicking default match arms
(`none` in this embedding): for every input it produces `some (Ok _)`.  All
other decoders in the catalog are structurally panic-free (they are total
functions into `Except`). -/
theorem c4_base_decode_never_panics (v : Nat) :
    ∃ b : BASE, BASE.tryFrom v = some (Except.ok b) := by
  obtain ⟨f, p, h⟩ := base_decode_shape v
  exact ⟨_, h⟩

/-- **C5**: for the nine whole-word registers, decode is total and both
compositions are the identity on all 32 bits. -/
theorem c5_whole_word_identity (v : Nat) (t : TAR) (t2 : TAR2) (dr : DRW) (d0 : BD0)
    (d1 : BD1) (d2 : BD2) (d3 : BD3) (mb : MBT) (ba : BASE2) :
    (TAR.tryFrom v = .ok { address := v } ∧ TAR.toU32 { address := v } = v
        ∧ TAR.tryFrom (TAR.toU32 t) = .ok t)
      ∧ (TAR2.tryFrom v = .ok { address := v } ∧ TAR2.toU32 { address := v } = v
        ∧ TAR2.tryFrom (TAR2.toU32 t2) = .ok t2)
      ∧ (DRW.tryFrom v = .ok { data := v } ∧ DRW.toU32 { data := v } = v
        ∧ DRW.tryFrom (DRW.toU32 dr) = .ok dr)
      ∧ (BD0.tryFrom v = .ok { data := v } ∧ BD0.toU32 { data := v } = v
        ∧ BD0.tryFrom (BD0.toU32 d0) = .ok d0)
      ∧ (BD1.tryFrom v = .ok { data := v } ∧ BD1.toU32 { data := v } = v
        ∧ BD1.tryFrom (BD1.toU32 d1) = .ok d1)
      ∧ (BD2.tryFrom v = .ok { data := v } ∧ BD2.toU32 { data := v } = v
        ∧ BD2.tryFrom (BD2.toU32 d2) = .ok d2)
      ∧ (BD3.tryFrom v = .ok { data := v } ∧ BD3.toU32 { data := v } = v
        ∧ BD3.tryFrom (BD3.toU32 d3) = .ok d3)
      ∧ (MBT.tryFrom v = .ok { data := v } ∧ MBT.toU32 { data := v } = v
        ∧ MBT.tryFrom (MBT.toU32 mb) = .ok mb)
      ∧ (BASE2.tryFrom v = .ok { BASEADDR := v } ∧ BASE2.toU32 { BASEADDR := v } = v
        ∧ BASE2.tryFrom (BASE2.toU32 ba) = .ok ba) :=
  ⟨⟨rfl, rfl, rfl⟩, ⟨rfl, rfl, rfl⟩, ⟨rfl, rfl, rfl⟩, ⟨rfl, rfl, rfl⟩, ⟨rfl, rfl, rfl⟩,
    ⟨rfl, rfl, rfl⟩, ⟨rfl, rfl, rfl⟩, ⟨rfl, rfl, rfl⟩, ⟨rfl, rfl, rfl⟩⟩

/-- **C6**: `0x24770011` decodes as IDR to exactly the field values obtained
by shift-and-mask of the authoritative layout (REVISION[31:28],
DESIGNER[27:17], CLASS[16:13], VARIANT[7:4], TYPE[3:0]). -/
theorem c6_idr_decode_example :
    IDR.tryFrom 0x24770011
        = .ok { REVISION := 0x2, DESIGNER := 0x23B, CLASS := 0x8, VARIANT := 0x1, TYPE := 0x1 }
      ∧ (0x2 : Nat) = (0x24770011 >>> 28) &&& 0xF
      ∧ (0x23B : Nat) = (0x24770011 >>> 17) &&& 0x7FF
      ∧ (0x8 : Nat) = (0x24770011 >>> 13) &&& 0xF
      ∧ (0x1 : Nat) = (0x24770011 >>> 4) &&& 0xF
      ∧ (0x1 : Nat) = 0x24770011 &&& 0xF := by
  decide

/-- **C7**: `0xE000_0003` decodes as BASE to `BASEADDR = 0xE0000`,
`Format = ADIv5`, `present = true`. -/
theorem c7_base_decode_example :
    BASE.tryFrom 0xE0000003
      = some (.ok { BASEADDR := 0xE0000, _RES0 := 0, Format := .ADIv5, present := true }) := by
  decide

/-- **C8**: `0x0000_0002` decodes as CSW to `SIZE = U32` (code `0b010`) with
every other field zero, false or `Off`. -/
theorem c8_csw_decode_example :
    CSW.tryFrom 0x00000002 = .ok
      { DbgSwEnable := false, Prot := 0, SDeviceEn := false, RMEEN := 0, _RES0 := 0,
        ERRSTOP := false, ERRNPASS := false, MTE := false, «Type» := 0, Mode := 0,
        TrInProg := false, DeviceEn := false, AddrInc := .Off, _RES1 := 0,
        SIZE := .U32 } := by
  decide

/-- **C9**: the three field-width enumerations classify their entire code
domains exactly as specified. -/
theorem c9_enum_code_classification :
    DataSize.tryFrom 0b000 = some .U8 ∧ DataSize.tryFrom 0b001 = some .U16
      ∧ DataSize.tryFrom 0b010 = some .U32 ∧ DataSize.tryFrom 0b011 = some .U64
      ∧ DataSize.tryFrom 0b100 = some .U128 ∧ DataSize.tryFrom 0b101 = some .U256
      ∧ DataSize.tryFrom 0b110 = none ∧ DataSize.tryFrom 0b111 = none
      ∧ AddressIncrement.fromU8 0b00 = some .Off
      ∧ AddressIncrement.fromU8 0b01 = some .Single
      ∧ AddressIncrement.fromU8 0b10 = some .Packed
      ∧ AddressIncrement.fromU8 0b11 = none
      ∧ BASE.formatOfBits 0 = some .Legacy ∧ BASE.formatOfBits 1 = some .ADIv5 := by
  decide

/-- **C10**: BASE's reserved bits are not preserved: decode forces
`_RES0 = 0` whatever bits [11:2] hold, the encoder ignores `_RES0` entirely,
and bits [11:2] of every encoded BASE value are zero. -/
theorem c10_base_reserved_bits_not_preserved :
    (∀ v : Nat, ∃ f p, BASE.tryFrom v = some (.ok
        { BASEADDR := (v &&& 0xFFFFF000) >>> 12, _RES0 := 0, Format := f, present := p }))
      ∧ (∀ b : BASE, ∀ r : Nat, BASE.toU32 { b with _RES0 := r } = BASE.toU32 b)
      ∧ (∀ b : BASE, (BASE.toU32 b >>> 2) &&& 0x3FF = 0) := by
  refine ⟨base_decode_shape, fun b r => rfl, ?_⟩
  intro b
  obtain ⟨B, br, f, pr⟩ := b
  have hf := BaseAddrFormat.code_le_one f
  have hpr := u32ofBool_le pr
  show ((((B <<< 12) ||| (f.code <<< 1) ||| u32ofBool pr) % 2 ^ 32) >>> 2) &&& 0x3FF = 0
  simp only [Nat.or_assoc]
  rw [shl_or_eq_add _ _ _ (show u32ofBool pr < 2 ^ 1 by omega)]
  rw [Nat.shiftLeft_eq]
  rw [or_eq_add_of_mod_eq_zero (B * 2 ^ 12) (f.code * 2 ^ 1 + u32ofBool pr) 12
    (by omega) (by omega)]
  rw [Nat.shiftRight_eq_div_pow, and_mask_eq_mod _ (show (0x3FF : Nat) = 2 ^ 10 - 1 from rfl)]
  omega
